import Mathlib

/-!
Verification of the feedloader run-coordination and batch-dispatch protocol.

Each definition is a shallow embedding of a function of the repository:

* `TasksClient` — `appengine/initiator/tasks_client.py` (`push_tasks`) and the
  row window loaded by `appengine/uploader/bigquery_client.py` (`load_items`).
* `Uploader` — `appengine/uploader/main.py` (`_run_process`,
  `_handle_content_api_error`, `_get_execution_attempt`),
  `appengine/uploader/batch_creator.py` (`create_batch`),
  `appengine/uploader/content_api_client.py` (`suggest_retry`,
  `_handle_response`), `appengine/uploader/models/upload_task.py`
  (`UploadTask.from_json`).
* `StageChanges` — `cloud_functions/bq-stage-changes/main.py`
  (`calculate_product_changes`, `_eof_is_invalid`, `_lock_exists`,
  `_ensure_all_files_were_imported`, `_clean_up`, the count/threshold block).

External collaborators (object store, BigQuery, Cloud Tasks, the Content API)
enter as explicit state or as input parameters recording the outcome of each
external call, so every path of the Python control flow is a path of the Lean
function.
-/

namespace TasksClient

/-- Ceiling division, the number of batches `push_tasks` creates for
`total_items` items with a given positive `batch_size`. -/
def ceilDiv (a b : Nat) : Nat := (a + b - 1) / b

/-- Embedding of the loop body of `TasksClient.push_tasks`
(`appengine/initiator/tasks_client.py`): starting from `start`, while
`start < total_items` push a task carrying `start` and advance by
`batch_size`.  The returned list is the list of `start_index` values of the
enqueued tasks, in order.  The guard `0 < batchSize` reflects that the Python
loop only terminates for a positive batch size. -/
def pushTasksFrom (totalItems batchSize start : Nat) : List Nat :=
  if h : 0 < batchSize ∧ start < totalItems then
    start :: pushTasksFrom totalItems batchSize (start + batchSize)
  else
    []
termination_by totalItems - start
decreasing_by
  omega

/-- Embedding of `TasksClient.push_tasks`: the loop starts at `start_index = 0`. -/
def pushTasks (totalItems batchSize : Nat) : List Nat :=
  pushTasksFrom totalItems batchSize 0

/-- The set of row indexes a batch task loads.  `BigQueryClient.load_items`
(`appengine/uploader/bigquery_client.py`) calls
`list_rows(table, start_index=start_index, max_results=batch_size)`, which on a
table of `count` rows returns the rows with indexes
`[start_index, min (start_index + batch_size) count)`. -/
def loadWindow (count start batchSize : Nat) : Finset Nat :=
  Finset.Ico start (min (start + batchSize) count)

/-- The union of the row windows loaded by a list of batch tasks. -/
def unionWindows (count batchSize : Nat) (starts : List Nat) : Finset Nat :=
  starts.foldr (fun s acc => loadWindow count s batchSize ∪ acc) ∅

end TasksClient

namespace Uploader

/-- A row of the per-run staging table as the uploader consumes it: the
`item_id` column and the `google_merchant_id` column (`none` models a
missing/empty merchant id, which is falsy in the Python truthiness test of
`batch_creator.create_batch`). -/
structure Item where
  itemId : String
  googleMerchantId : Option String
deriving DecidableEq

/-- Embedding of `models/upload_task.py` `UploadTask`. -/
structure UploadTask where
  startIndex : Int
  batchSize : Int
  timestamp : String
deriving DecidableEq

/-- A task-queue JSON payload: each field of the task body is present or
absent. -/
structure TaskPayload where
  startIndex : Option Int
  batchSize : Option Int
  timestamp : Option String

/-- Embedding of `UploadTask.from_json`: `json_data.get('start_index', 0)`,
`json_data.get('batch_size', 0)`, `json_data.get('timestamp', '0')`. -/
def UploadTask.fromJson (p : TaskPayload) : UploadTask :=
  { startIndex := p.startIndex.getD 0
    batchSize := p.batchSize.getD 0
    timestamp := p.timestamp.getD "0" }

/-- Constant `TASK_RETRY_LIMIT` of `appengine/uploader/main.py`. -/
def TASK_RETRY_LIMIT : Nat := 5

/-- Constant `_RETRY_STATUS_CODE` of `appengine/uploader/content_api_client.py`:
`AUTHENTICATION_ERROR (401)`, `ACCESS_ERROR (403)`,
`QUOTA_LIMITS_REACHED (429)`, `INTERNAL_SERVER_ERROR (500)`,
`SOCKET_TIMEOUT (408)`, with the numeric values taken from
`constants.ShoppingApiErrorCodes`. -/
def RETRY_STATUS_CODE : List Nat := [401, 403, 429, 500, 408]

/-- Embedding of `content_api_client.suggest_retry`. -/
def suggestRetry (statusCode : Nat) : Bool :=
  decide (statusCode ∈ RETRY_STATUS_CODE)

/-- Embedding of `main._get_execution_attempt`.  The input is the raw value of
the `X-AppEngine-TaskExecutionCount` header (`none` when the header is
absent).  An absent header reads as `''` via `headers.get(..., '')`; an empty
string is falsy, so the function returns `TASK_RETRY_LIMIT`.  Otherwise the
value is parsed with `int(...)`; `none` in the result models the `ValueError`
raised on a non-numeric header. -/
def getExecutionAttempt (header : Option String) : Option Nat :=
  match header with
  | none => some TASK_RETRY_LIMIT
  | some s => if s.isEmpty then some TASK_RETRY_LIMIT else s.toNat?

/-- The condition of the retry branch in `main._handle_content_api_error`:
`content_api_client.suggest_retry(error_status_code) and
_get_execution_attempt() < TASK_RETRY_LIMIT`. -/
def retryEligible (statusCode attempt : Nat) : Bool :=
  suggestRetry statusCode && decide (attempt < TASK_RETRY_LIMIT)

/-- One entry of the custombatch request built by
`batch_creator.create_batch`: its `batchId` and `merchantId` fields (the
per-method `product`/`productId` payload is the out-of-scope wire format). -/
structure BatchEntry where
  batchId : Nat
  merchantId : String
deriving DecidableEq

/-- Embedding of the loop of `batch_creator.create_batch`, with `i` the value
of the running `enumerate` counter (`batch_id`).  For each row: under an MCA
account a row with a falsy `google_merchant_id` is skipped (its `item_id` is
appended to `skipped_item_ids` and no entry is produced, while the counter
still advances); otherwise an entry is appended to the batch and
`batch_id_to_item_id[batch_id] = item_id` is recorded. -/
def createBatchAux (isMca : Bool) (merchantIdEnv : String) :
    Nat → List Item → List BatchEntry × List String × List (Nat × String)
  | _, [] => ([], [], [])
  | i, item :: rest =>
    let r := createBatchAux isMca merchantIdEnv (i + 1) rest
    if isMca then
      match item.googleMerchantId with
      | some mid =>
        if mid.isEmpty then (r.1, item.itemId :: r.2.1, r.2.2)
        else (⟨i, mid⟩ :: r.1, r.2.1, (i, item.itemId) :: r.2.2)
      | none => (r.1, item.itemId :: r.2.1, r.2.2)
    else
      (⟨i, merchantIdEnv⟩ :: r.1, r.2.1, (i, item.itemId) :: r.2.2)

/-- Embedding of `batch_creator.create_batch`: returns the batch entries, the
skipped item ids and the `batch_id → item_id` map (as an association list in
insertion order). -/
def createBatch (isMca : Bool) (merchantIdEnv : String) (items : List Item) :
    List BatchEntry × List String × List (Nat × String) :=
  createBatchAux isMca merchantIdEnv 0 items

/-- One entry of a Content API custombatch response: `entry.get('batchId')`
and `entry.get('errors')` (here reduced to the error message used to build the
failure reason). -/
structure ResponseEntry where
  batchId : Option Nat
  errors : Option String
deriving DecidableEq

/-- A Content API custombatch response: `kindOk` is the test
`response.get('kind') == 'content#productsCustomBatchResponse'`, and
`entries` is `response.get('entries', [])`. -/
structure ApiResponse where
  kindOk : Bool
  entries : List ResponseEntry
deriving DecidableEq

/-- Embedding of `batch_id_to_item_id.get(batch_id)`: dictionary lookup returning `none`
when the key is absent (or when the response entry carried no `batchId`). -/
def lookupItemId (idMap : List (Nat × String)) (key : Option Nat) : Option String :=
  match key with
  | none => none
  | some i => (idMap.find? (fun p => p.1 = i)).map Prod.snd

/-- An element of `content_api_failures`: the item id (possibly `None` when
the response's batch id was unknown) and the error reason. -/
structure Failure where
  itemId : Option String
  errorMsg : String
deriving DecidableEq

/-- Embedding of the entry loop of `content_api_client._handle_response`:
each response entry with an `errors` object contributes a failure, every
other entry contributes a success, in response order. -/
def handleResponseEntries (idMap : List (Nat × String)) :
    List ResponseEntry → List (Option String) × List Failure
  | [] => ([], [])
  | e :: rest =>
    let r := handleResponseEntries idMap rest
    match e.errors with
    | some msg => (r.1, ⟨lookupItemId idMap e.batchId, msg⟩ :: r.2)
    | none => (lookupItemId idMap e.batchId :: r.1, r.2)

/-- Embedding of `content_api_client._handle_response`: an invalid `kind`
marks every id of `batch_id_to_item_id` as failed; otherwise the entries are
classified one by one. -/
def handleResponse (resp : ApiResponse) (idMap : List (Nat × String)) :
    List (Option String) × List Failure :=
  if !resp.kindOk then
    ([], idMap.map (fun p => ⟨some p.2, "API returned unexpected response."⟩))
  else
    handleResponseEntries idMap resp.entries

/-- Embedding of `models/process_result.py` `ProcessResult`. -/
structure ProcessResult where
  successfullyProcessedItemIds : List (Option String)
  contentApiFailures : List Failure
  skippedItemIds : List String
deriving DecidableEq

/-- Outcome of `_load_items_from_bigquery`: either the `HttpError` branch or
the list of rows returned for the batch's window. -/
inductive LoadOutcome where
  | httpError
  | rows (items : List Item)
deriving DecidableEq

/-- Outcome of the Content API submission inside `_run_process`: a response
(handled by `_handle_response`), an `HttpError` with its status and reason,
or a `socket.timeout`. -/
inductive ApiOutcome where
  | response (r : ApiResponse)
  | httpError (statusCode : Nat) (reason : String)
  | socketTimeout
deriving DecidableEq

/-- The observable outcome of one `_run_process` invocation: the HTTP
response returned to the task queue and the list of results passed to
`ResultRecorder.insert_result` in the `finally` block (one element per call). -/
structure RunOutcome where
  responseText : String
  statusCode : Nat
  recorded : List ProcessResult
deriving DecidableEq

/-- Embedding of `main._handle_content_api_error`'s result: every loaded row
is marked as a failure carrying the upstream error reason. -/
def handleContentApiError (reason : String) (items : List Item) : ProcessResult :=
  ⟨[], items.map (fun r => ⟨some r.itemId, reason⟩), []⟩

/-- Embedding of `main._run_process`.  The Python control flow: a
`batch_size` of 0 returns `'OK', 200` before the `try/finally` block (so
nothing is recorded); an `HttpError` while loading returns 500 before the
block; inside the block, zero loaded rows short-circuits with an empty
result, a response is classified entry by entry, and an `HttpError` or
`socket.timeout` from the submission marks every loaded row failed — in all
of these the `finally` block records the result exactly once. -/
def runProcess (task : UploadTask) (isMca : Bool) (merchantIdEnv : String)
    (load : LoadOutcome) (api : ApiOutcome) : RunOutcome :=
  if task.batchSize = 0 then ⟨"OK", 200, []⟩
  else
    match load with
    | .httpError => ⟨"Error loading items from BigQuery", 500, []⟩
    | .rows items =>
      if items.isEmpty then ⟨"No items to process", 200, [⟨[], [], []⟩]⟩
      else
        let cb := createBatch isMca merchantIdEnv items
        match api with
        | .response r =>
          let hr := handleResponse r cb.2.2
          ⟨"OK", 200, [⟨hr.1, hr.2, cb.2.1⟩]⟩
        | .httpError statusCode reason =>
          ⟨reason, statusCode, [handleContentApiError reason items]⟩
        | .socketTimeout =>
          ⟨"Socket timeout", 408, [handleContentApiError "Socket timeout" items]⟩

/-- The rows loaded from the staging table for the invocation. -/
def loadedRows : LoadOutcome → List Item
  | .httpError => []
  | .rows items => items

end Uploader

namespace Uploader

/-- The truthiness test `if item_row['google_merchant_id']` of
`batch_creator.create_batch`, negated: a missing or empty merchant id. -/
def merchantMissing (item : Item) : Bool :=
  match item.googleMerchantId with
  | none => true
  | some mid => mid.isEmpty

end Uploader

namespace StageChanges

/-- Constant `_DEFAULT_DELETES_THRESHOLD` of `cloud_functions/bq-stage-changes/main.py`. -/
def DEFAULT_DELETES_THRESHOLD : Int := 100000

/-- The outcomes of every external call `calculate_product_changes` makes, in
program order: the triggering event's name and size, the two threshold
environment variables, the blob listings of the feed and completed-files
buckets, the success of each Cloud Storage / BigQuery / Cloud Tasks
operation, and the values returned by the three `_count_changes` queries
(`-1` models a count query yielding no row, as `_count_changes` returns). -/
structure CalcEnv where
  eventName : String
  eventSize : Int
  deletesThresholdEnv : Int
  upsertsThresholdEnv : Int
  attemptedFiles : List String
  completedFiles : List String
  cleanupCompletedOk : Bool
  archiveOk : Bool
  tablesExist : Bool
  configOk : Bool
  copyItemsOk : Bool
  deletesCalcOk : Bool
  updatesCalcOk : Bool
  insertsCalcOk : Bool
  expirationsCalcOk : Bool
  deleteCountRaw : Int
  upsertCountRaw : Int
  expiringCountRaw : Int
  createTaskOk : Bool

/-- The run-scoped external state the function reads and mutates: whether the
`EOF.lock` object exists in the lock bucket and whether the run-scoped
`items` table exists. -/
structure CalcState where
  lockExists : Bool
  itemsTableExists : Bool
deriving DecidableEq

/-- What an invocation of `calculate_product_changes` leaves behind: the
final lock/items-table state, the contents of the `REPROCESS_TRIGGER_FILE`
written to the retrigger bucket (if any), the `/start` task payload
`(deleteCount, expiringCount, upsertCount)` dispatched to the initiator (if
any), and how many times the `DELETE_LATEST_STREAMING_ITEMS` DML rollback
was run against `streaming_items`. -/
structure CalcResult where
  lockExists : Bool
  itemsTableExists : Bool
  retrigger : Option (List String)
  dispatched : Option (Int × Int × Int)
  streamingRollbacks : Nat
deriving DecidableEq

/-- The result of a `return` that touches nothing: lock and items table as
they were, no retrigger, no dispatch, no rollback. -/
def unchangedResult (st : CalcState) : CalcResult :=
  ⟨st.lockExists, st.itemsTableExists, none, none, 0⟩

/-- Embedding of `_clean_up`: deletes `EOF.lock` if present and, when
`clean_items_table` (default `True`), drops the run-scoped items table
(`not_found_ok=True`). -/
def cleanUp (st : CalcState) (cleanItemsTable : Bool) : CalcState :=
  ⟨false, if cleanItemsTable then false else st.itemsTableExists⟩

/-- Embedding of `_eof_is_invalid`: a trigger file is invalid when its name
is neither `EOF` nor `EOF.retry`, or when its size is nonzero. -/
def eofIsInvalid (name : String) (size : Int) : Bool :=
  if name ≠ "EOF" ∧ name ≠ "EOF.retry" then true
  else if size ≠ 0 then true
  else false

/-- Embedding of the defaulting of `DELETES_THRESHOLD`:
`if not deletes_threshold or deletes_threshold <= 0:` replaces it with
`_DEFAULT_DELETES_THRESHOLD`. -/
def deletesThreshold (env : CalcEnv) : Int :=
  if env.deletesThresholdEnv ≤ 0 then DEFAULT_DELETES_THRESHOLD
  else env.deletesThresholdEnv

/-- Embedding of `_ensure_all_files_were_imported`: an empty enumeration of
either bucket logs a `NotFound`, runs `_clean_up` and returns
`(False, [])`; otherwise `missing` is the list of attempted filenames not
among the completed filenames, returned with `False` when non-empty and with
no cleanup.  The returned state reflects the `_clean_up` calls. -/
def ensureAllFilesWereImported (st : CalcState)
    (attempted completed : List String) : (Bool × List String) × CalcState :=
  if attempted.isEmpty then ((false, []), cleanUp st true)
  else if completed.isEmpty then ((false, []), cleanUp st true)
  else
    let missing := attempted.filter (fun f => !completed.contains f)
    if !missing.isEmpty then ((false, missing), st)
    else ((true, []), st)

/-- Embedding of the count-and-threshold block (the `_count_changes` calls
through the two threshold checks).  Inputs: the (defaulted) deletes
threshold, the raw `UPSERTS_THRESHOLD` environment value, and the three raw
counts.  A negative count is zeroed; a negative upsert count additionally
runs the `DELETE_LATEST_STREAMING_ITEMS` rollback.  A delete count above the
deletes threshold is zeroed with no other effect.  The upsert threshold
check reads the local `upsert_set`, which was only assigned when
`UPSERTS_THRESHOLD` was a positive int; when it was not, Python raises
`UnboundLocalError` — modelled as `none`.  Result:
`(deleteCount, upsertCount, expiringCount, rollback count)`. -/
def applyCountsAndThresholds (dThresh uThreshEnv dRaw uRaw eRaw : Int) :
    Option (Int × Int × Int × Nat) :=
  let d0 := if dRaw < 0 then 0 else dRaw
  let u0 := if uRaw < 0 then 0 else uRaw
  let r0 : Nat := if uRaw < 0 then 1 else 0
  let e0 := if eRaw < 0 then 0 else eRaw
  let d1 := if d0 > dThresh then 0 else d0
  if 0 < uThreshEnv then
    if u0 > uThreshEnv then some (d1, 0, e0, r0 + 1)
    else some (d1, u0, e0, r0)
  else none

/-- Embedding of `calculate_product_changes` from the import-completeness
check onward (the code after the locking routine): verification, completed-
filenames cleanup, archiving, table existence, config parsing, the five
materialize jobs, counts and thresholds, task dispatch, and the final
`_clean_up` (full on failure, lock-only on success). -/
def afterLockPhase (env : CalcEnv) (st : CalcState) : Option CalcResult :=
  let ver := ensureAllFilesWereImported st env.attemptedFiles env.completedFiles
  if !ver.1.1 then
    some ⟨ver.2.lockExists, ver.2.itemsTableExists,
      if ver.1.2.isEmpty then none else some ver.1.2, none, 0⟩
  else if !env.cleanupCompletedOk then
    let st2 := cleanUp ver.2 true
    some ⟨st2.lockExists, st2.itemsTableExists, none, none, 0⟩
  else if !env.archiveOk then
    let st2 := cleanUp ver.2 true
    some ⟨st2.lockExists, st2.itemsTableExists, none, none, 0⟩
  else if !env.tablesExist then
    let st2 := cleanUp ver.2 true
    some ⟨st2.lockExists, st2.itemsTableExists, none, none, 0⟩
  else if !env.configOk then
    let st2 := cleanUp ver.2 true
    some ⟨st2.lockExists, st2.itemsTableExists, none, none, 0⟩
  else if !env.copyItemsOk then
    let st2 := cleanUp ver.2 true
    some ⟨st2.lockExists, st2.itemsTableExists, none, none, 0⟩
  else if !env.deletesCalcOk then
    let st2 := cleanUp ver.2 true
    some ⟨st2.lockExists, st2.itemsTableExists, none, none, 0⟩
  else if !env.updatesCalcOk then
    let st2 := cleanUp ver.2 true
    some ⟨st2.lockExists, st2.itemsTableExists, none, none, 0⟩
  else if !env.insertsCalcOk then
    let st2 := cleanUp ver.2 true
    some ⟨st2.lockExists, st2.itemsTableExists, none, none, 0⟩
  else if !env.expirationsCalcOk then
    let st2 := cleanUp ver.2 true
    some ⟨st2.lockExists, st2.itemsTableExists, none, none, 0⟩
  else
    match applyCountsAndThresholds (deletesThreshold env) env.upsertsThresholdEnv
        env.deleteCountRaw env.upsertCountRaw env.expiringCountRaw with
    | none => none
    | some (d, u, e, rollbacks) =>
      if env.createTaskOk then
        let st2 := cleanUp ver.2 false
        some ⟨st2.lockExists, st2.itemsTableExists, none, some (d, e, u), rollbacks⟩
      else
        let st2 := cleanUp ver.2 true
        some ⟨st2.lockExists, st2.itemsTableExists, none, none, rollbacks + 1⟩

/-- Embedding of `calculate_product_changes`: an invalid trigger returns at
once; a non-retry trigger (`EOF`) returns when `_lock_exists` and otherwise
acquires the lock via `_lock_eof` (copying the trigger to `EOF.lock`); an
`EOF.retry` trigger skips the locking routine entirely.  `none` models an
uncaught Python exception (the `UnboundLocalError` of the upsert-threshold
check). -/
def calculateProductChanges (env : CalcEnv) (st : CalcState) : Option CalcResult :=
  if eofIsInvalid env.eventName env.eventSize then some (unchangedResult st)
  else if env.eventName ≠ "EOF.retry" then
    if st.lockExists then some (unchangedResult st)
    else afterLockPhase env { st with lockExists := true }
  else afterLockPhase env st

end StageChanges

namespace TasksClient

theorem ceilDiv_pos_step (b t : Nat) (hb : 0 < b) (ht : 0 < t) :
    ceilDiv t b = ceilDiv (t - b) b + 1 := by
  unfold ceilDiv
  have h1 : t + b - 1 = (t - 1) + b := by omega
  rw [h1, Nat.add_div_right _ hb]
  by_cases hc : t ≤ b
  · have h2 : t - b = 0 := by omega
    rw [h2]
    have h3 : (t - 1) / b = 0 := Nat.div_eq_of_lt (by omega)
    have h4 : (0 + b - 1) / b = 0 := Nat.div_eq_of_lt (by omega)
    rw [h3, h4]
  · have h2 : t - b + b - 1 = (t - 1 - b) + b := by omega
    rw [h2, Nat.add_div_right _ hb]
    have h3 : t - 1 = (t - 1 - b) + b := by omega
    rw [h3, Nat.add_div_right _ hb]
    have h4 : t - 1 - b + b - b = t - 1 - b := by omega
    rw [h4]

theorem pushTasksFrom_eq (batchSize : Nat) (hb : 0 < batchSize) :
    ∀ fuel totalItems start, totalItems - start ≤ fuel →
      pushTasksFrom totalItems batchSize start =
        (List.range (ceilDiv (totalItems - start) batchSize)).map
          (fun k => start + batchSize * k) := by
  intro fuel
  induction fuel with
  | zero =>
    intro totalItems start hle
    rw [pushTasksFrom]
    have h0 : totalItems - start = 0 := by omega
    rw [h0]
    have hns : ¬ (0 < batchSize ∧ start < totalItems) := by omega
    have hz : ceilDiv 0 batchSize = 0 := by
      unfold ceilDiv
      exact Nat.div_eq_of_lt (by omega)
    simp [hns, hz]
  | succ n ih =>
    intro totalItems start hle
    rw [pushTasksFrom]
    by_cases hlt : start < totalItems
    · have hcond : 0 < batchSize ∧ start < totalItems := ⟨hb, hlt⟩
      rw [dif_pos hcond]
      have hrec := ih totalItems (start + batchSize) (by omega)
      rw [hrec]
      have hstep : ceilDiv (totalItems - start) batchSize =
          ceilDiv (totalItems - (start + batchSize)) batchSize + 1 := by
        have := ceilDiv_pos_step batchSize (totalItems - start) hb (by omega)
        have harith : totalItems - start - batchSize = totalItems - (start + batchSize) := by
          omega
        rw [harith] at this
        exact this
      rw [hstep, List.range_succ_eq_map]
      simp only [List.map_cons, List.map_map, Nat.mul_zero, Nat.add_zero]
      congr 1
      apply List.map_congr_left
      intro k _
      simp only [Function.comp_apply]
      rw [Nat.succ_eq_add_one, Nat.mul_add, Nat.mul_one]
      omega
    · have hns : ¬ (0 < batchSize ∧ start < totalItems) := by omega
      rw [dif_neg hns]
      have h0 : totalItems - start = 0 := by omega
      rw [h0]
      have hz : ceilDiv 0 batchSize = 0 := by
        unfold ceilDiv
        exact Nat.div_eq_of_lt (by omega)
      simp [hz]

theorem pushTasks_eq (totalItems batchSize : Nat) (hb : 0 < batchSize) :
    pushTasks totalItems batchSize =
      (List.range (ceilDiv totalItems batchSize)).map (fun k => batchSize * k) := by
  unfold pushTasks
  rw [pushTasksFrom_eq batchSize hb (totalItems - 0) totalItems 0 (by omega)]
  simp

theorem le_ceilDiv_mul (a b : Nat) (hb : 0 < b) : a ≤ b * ceilDiv a b := by
  unfold ceilDiv
  have hdm := Nat.div_add_mod (a + b - 1) b
  have hmod : (a + b - 1) % b < b := Nat.mod_lt _ hb
  set q := (a + b - 1) / b with hq
  set r := (a + b - 1) % b with hr
  set m := b * q with hm
  omega

theorem mem_loadWindow (count start batchSize x : Nat) :
    x ∈ loadWindow count start batchSize ↔
      start ≤ x ∧ x < start + batchSize ∧ x < count := by
  unfold loadWindow
  simp [Finset.mem_Ico]
theorem mem_unionWindows (count batchSize x : Nat) (starts : List Nat) :
    x ∈ unionWindows count batchSize starts ↔
      ∃ s ∈ starts, x ∈ loadWindow count s batchSize := by
  induction starts with
  | nil => simp [unionWindows]
  | cons s rest ih =>
    simp only [unionWindows, List.foldr_cons, Finset.mem_union, List.mem_cons]
    rw [show rest.foldr (fun s acc => loadWindow count s batchSize ∪ acc) ∅ =
        unionWindows count batchSize rest from rfl] at *
    constructor
    · rintro (hx | hx)
      · exact ⟨s, Or.inl rfl, hx⟩
      · obtain ⟨t, ht, hxt⟩ := (ih).mp hx
        exact ⟨t, Or.inr ht, hxt⟩
    · rintro ⟨t, (rfl | ht), hxt⟩
      · exact Or.inl hxt
      · exact Or.inr ((ih).mpr ⟨t, ht, hxt⟩)

theorem windows_disjoint (count batchSize k1 k2 : Nat) (hb : 0 < batchSize)
    (hne : k1 ≠ k2) :
    Disjoint (loadWindow count (batchSize * k1) batchSize)
      (loadWindow count (batchSize * k2) batchSize) := by
  have key : ∀ a b : Nat, a < b →
      Disjoint (loadWindow count (batchSize * a) batchSize)
        (loadWindow count (batchSize * b) batchSize) := by
    intro a b hab
    rw [Finset.disjoint_left]
    intro x hxa hxb
    rw [mem_loadWindow] at hxa hxb
    have hmul : batchSize * (a + 1) ≤ batchSize * b := Nat.mul_le_mul_left _ (by omega)
    have hexp : batchSize * (a + 1) = batchSize * a + batchSize := by ring
    omega
  rcases Nat.lt_or_ge k1 k2 with h | h
  · exact key k1 k2 h
  · exact (key k2 k1 (by omega)).symm

theorem unionWindows_pushTasks (count batchSize : Nat) (hb : 0 < batchSize) :
    unionWindows count batchSize (pushTasks count batchSize) = Finset.range count := by
  ext x
  rw [mem_unionWindows, Finset.mem_range]
  rw [pushTasks_eq count batchSize hb]
  constructor
  · rintro ⟨s, _, hx⟩
    rw [mem_loadWindow] at hx
    omega
  · intro hx
    refine ⟨batchSize * (x / batchSize), ?_, ?_⟩
    · rw [List.mem_map]
      refine ⟨x / batchSize, ?_, rfl⟩
      rw [List.mem_range]
      by_contra hk
      have hge : ceilDiv count batchSize ≤ x / batchSize := by omega
      have h1 : batchSize * ceilDiv count batchSize ≤ batchSize * (x / batchSize) :=
        Nat.mul_le_mul_left _ hge
      have h2 : count ≤ batchSize * ceilDiv count batchSize := le_ceilDiv_mul count batchSize hb
      have h3 := Nat.div_add_mod x batchSize
      have h4 : x % batchSize < batchSize := Nat.mod_lt _ hb
      set m := batchSize * (x / batchSize) with hm
      set c := batchSize * ceilDiv count batchSize with hc
      omega
    · rw [mem_loadWindow]
      have h3 := Nat.div_add_mod x batchSize
      have h4 : x % batchSize < batchSize := Nat.mod_lt _ hb
      set m := batchSize * (x / batchSize) with hm
      omega

theorem pushTasks_zero (batchSize : Nat) : pushTasks 0 batchSize = [] := by
  rw [pushTasks, pushTasksFrom]
  simp

end TasksClient

/-- C1: for every `count ≥ 0` and `batch_size > 0`, `TasksClient.push_tasks`
enqueues exactly `ceil (count / batch_size)` batch tasks, whose start indexes
are `0, batch_size, 2 * batch_size, ...`; the row windows those batches load,
`[start_index, min (start_index + batch_size) count)`, are pairwise disjoint
and their union is `[0, count)`; `count = 2500` with `batch_size = 1000`
yields the three batches `[0,1000)`, `[1000,2000)`, `[2000,2500)`, and
`count = 0` enqueues no task. -/
theorem claim_C1 (count batchSize : Nat) (hb : 0 < batchSize) :
    (TasksClient.pushTasks count batchSize).length =
        TasksClient.ceilDiv count batchSize ∧
    TasksClient.pushTasks count batchSize =
        (List.range (TasksClient.ceilDiv count batchSize)).map
          (fun k => batchSize * k) ∧
    (∀ s1 ∈ TasksClient.pushTasks count batchSize,
      ∀ s2 ∈ TasksClient.pushTasks count batchSize, s1 ≠ s2 →
        Disjoint (TasksClient.loadWindow count s1 batchSize)
          (TasksClient.loadWindow count s2 batchSize)) ∧
    TasksClient.unionWindows count batchSize
        (TasksClient.pushTasks count batchSize) = Finset.range count ∧
    TasksClient.pushTasks 2500 1000 = [0, 1000, 2000] ∧
    TasksClient.pushTasks 0 batchSize = [] := by
  have heq := TasksClient.pushTasks_eq count batchSize hb
  refine ⟨?_, heq, ?_, TasksClient.unionWindows_pushTasks count batchSize hb, ?_, TasksClient.pushTasks_zero batchSize⟩
  · rw [heq]
    simp
  · intro s1 hs1 s2 hs2 hne
    rw [heq, List.mem_map] at hs1 hs2
    obtain ⟨k1, _, rfl⟩ := hs1
    obtain ⟨k2, _, rfl⟩ := hs2
    exact TasksClient.windows_disjoint count batchSize k1 k2 hb
      (fun h => hne (by rw [h]))
  · rw [TasksClient.pushTasks_eq 2500 1000 (by norm_num)]
    decide

/-- Witness for C1 at `count = 2500`, `batch_size = 1000`. -/
theorem claim_C1_witness :
    (TasksClient.pushTasks 2500 1000).length = TasksClient.ceilDiv 2500 1000 := by
  exact (claim_C1 2500 1000 (by norm_num)).1

namespace Uploader

theorem createBatchAux_len (isMca : Bool) (env : String) :
    ∀ (i : Nat) (items : List Item),
      (createBatchAux isMca env i items).1.length +
          (createBatchAux isMca env i items).2.1.length = items.length ∧
      (createBatchAux isMca env i items).2.2.length =
          (createBatchAux isMca env i items).1.length := by
  intro i items
  induction items generalizing i with
  | nil => simp [createBatchAux]
  | cons item rest ih =>
    have h := ih (i + 1)
    cases isMca with
    | false =>
      simp only [createBatchAux, Bool.false_eq_true, if_false, List.length_cons]
      omega
    | true =>
      cases hg : item.googleMerchantId with
      | none =>
        simp only [createBatchAux, hg, if_true, List.length_cons]
        omega
      | some mid =>
        by_cases he : mid.isEmpty
        · simp only [createBatchAux, hg, he, if_true, List.length_cons]
          omega
        · simp only [createBatchAux, hg, if_true, if_neg he, List.length_cons]
          omega

theorem createBatchAux_skipped (isMca : Bool) (env : String) :
    ∀ (i : Nat) (items : List Item),
      (createBatchAux isMca env i items).2.1 =
        (items.filter (fun it => isMca && merchantMissing it)).map Item.itemId := by
  intro i items
  induction items generalizing i with
  | nil => simp [createBatchAux]
  | cons item rest ih =>
    have h := ih (i + 1)
    cases isMca with
    | false =>
      simp only [createBatchAux, Bool.false_eq_true, if_false]
      simp [List.filter_cons, h]
    | true =>
      cases hg : item.googleMerchantId with
      | none =>
        simp only [createBatchAux, hg, if_true]
        simp [List.filter_cons, merchantMissing, hg, h]
      | some mid =>
        by_cases he : mid.isEmpty
        · simp only [createBatchAux, hg, he, if_true]
          simp [List.filter_cons, merchantMissing, hg, he, h]
        · simp only [createBatchAux, hg, if_true, if_neg he]
          simp [List.filter_cons, merchantMissing, hg, he, h]

theorem handleResponseEntries_len (idMap : List (Nat × String)) :
    ∀ entries : List ResponseEntry,
      (handleResponseEntries idMap entries).1.length +
        (handleResponseEntries idMap entries).2.length = entries.length := by
  intro entries
  induction entries with
  | nil => simp [handleResponseEntries]
  | cons e rest ih =>
    cases he : e.errors with
    | none =>
      simp only [handleResponseEntries, he]
      simp only [List.length_cons]
      omega
    | some msg =>
      simp only [handleResponseEntries, he]
      simp only [List.length_cons]
      omega

end Uploader

/-- C2 (amended): every `_run_process` invocation that passes the
`batch_size == 0` guard and whose BigQuery load succeeds calls
`ResultRecorder.insert_result` exactly once, on every path inside the
`try/finally` block — success, zero rows loaded, `HttpError` from the
Content API, socket timeout; a task with `batch_size = 0` and a load that
raises `HttpError` return before the block and record nothing. -/
theorem claim_C2 (task : Uploader.UploadTask) (isMca : Bool) (env : String)
    (items : List Uploader.Item) (api : Uploader.ApiOutcome) :
    (task.batchSize ≠ 0 →
      (Uploader.runProcess task isMca env (.rows items) api).recorded.length = 1)
    ∧ (task.batchSize = 0 → ∀ load : Uploader.LoadOutcome,
      (Uploader.runProcess task isMca env load api).recorded = [])
    ∧ (Uploader.runProcess task isMca env .httpError api).recorded.length = 0 := by
  refine ⟨?_, ?_, ?_⟩
  · intro hbs
    rw [Uploader.runProcess.eq_def, if_neg hbs]
    by_cases hempty : items.isEmpty
    · simp [hempty]
    · simp only [hempty, Bool.false_eq_true, if_false]
      cases api <;> simp
  · intro hbs load
    rw [Uploader.runProcess.eq_def, if_pos hbs]
  · rw [Uploader.runProcess.eq_def]
    by_cases hbs : task.batchSize = 0
    · simp [hbs]
    · simp [hbs]

/-- Counterexample to C2 as stated: on the path where the task's
`batch_size` is 0, `_run_process` returns before the `try/finally` block and
`insert_result` is never called, even though rows exist and the submission
would have timed out. -/
theorem claim_C2_counterexample :
    (Uploader.runProcess ⟨0, 0, "0"⟩ false "merchant"
        (.rows [⟨"item1", none⟩]) .socketTimeout).recorded = [] := rfl

/-- Witness for C2 at a concrete nonzero batch size. -/
theorem claim_C2_witness :
    (Uploader.runProcess ⟨0, 1000, "ts"⟩ false "merchant"
        (.rows [⟨"item1", none⟩]) .socketTimeout).recorded.length = 1 :=
  (claim_C2 ⟨0, 1000, "ts"⟩ false "merchant" [⟨"item1", none⟩] .socketTimeout).1
    (by decide)

/-- C4: an HTTP status code is retryable iff it is one of 401, 403, 429, 500,
408; the retry branch of `_handle_content_api_error` fires exactly when the
status is retryable and the execution attempt is strictly below
`TASK_RETRY_LIMIT = 5`; and the result built for a failed batch marks every
item of the batch as a failure carrying the upstream error reason. -/
theorem claim_C4 :
    (∀ statusCode : Nat, Uploader.suggestRetry statusCode = true ↔
      (statusCode = 401 ∨ statusCode = 403 ∨ statusCode = 429 ∨
        statusCode = 500 ∨ statusCode = 408))
    ∧ Uploader.TASK_RETRY_LIMIT = 5
    ∧ (∀ statusCode attempt : Nat,
        Uploader.retryEligible statusCode attempt = true ↔
          (Uploader.suggestRetry statusCode = true ∧
            attempt < Uploader.TASK_RETRY_LIMIT))
    ∧ (∀ (reason : String) (items : List Uploader.Item),
        (Uploader.handleContentApiError reason items).contentApiFailures =
          items.map (fun i => ⟨some i.itemId, reason⟩) ∧
        (Uploader.handleContentApiError reason items).successfullyProcessedItemIds = [] ∧
        (Uploader.handleContentApiError reason items).skippedItemIds = []) := by
  refine ⟨?_, rfl, ?_, ?_⟩
  · intro statusCode
    simp [Uploader.suggestRetry, Uploader.RETRY_STATUS_CODE]
  · intro statusCode attempt
    simp [Uploader.retryEligible]
  · intro reason items
    exact ⟨rfl, rfl, rfl⟩

/-- C5 (amended): when the execution-attempt header is absent or empty,
`_get_execution_attempt` returns `TASK_RETRY_LIMIT` (5), not 0; since the
retry condition requires the attempt to be strictly below
`TASK_RETRY_LIMIT`, this value disables retries for every status code,
retryable or not. -/
theorem claim_C5 :
    Uploader.getExecutionAttempt none = some Uploader.TASK_RETRY_LIMIT
    ∧ Uploader.getExecutionAttempt (some "") = some Uploader.TASK_RETRY_LIMIT
    ∧ (∀ statusCode : Nat,
        Uploader.retryEligible statusCode Uploader.TASK_RETRY_LIMIT = false) := by
  refine ⟨rfl, rfl, ?_⟩
  intro statusCode
  simp [Uploader.retryEligible]

/-- Counterexample to C5 as stated: an absent (or empty) execution-attempt
header yields attempt count 5 (`TASK_RETRY_LIMIT`), not 0 — and 0 would
permit retries rather than forbid them, since `0 < TASK_RETRY_LIMIT`. -/
theorem claim_C5_counterexample :
    Uploader.getExecutionAttempt none ≠ some 0
    ∧ Uploader.getExecutionAttempt (some "") ≠ some 0
    ∧ Uploader.retryEligible 500 0 = true := by
  refine ⟨?_, ?_, ?_⟩ <;> decide

/-- C6: for every batch task invocation, every result handed to
`ResultRecorder.insert_result` satisfies
`len successful + len failures + len skipped = number of rows loaded` —
for all batch sizes including 0 (where nothing is loaded and nothing is
recorded); items dropped before submission for a missing merchant id are the
skipped ids; and on a whole-batch `HttpError` every loaded row appears among
the failures.  The hypothesis states the Content API contract that a
well-formed (`kind`-matching) custombatch response carries one entry per
entry submitted, which is what `_handle_response` relies on. -/
theorem claim_C6 (task : Uploader.UploadTask) (isMca : Bool) (env : String)
    (load : Uploader.LoadOutcome) (api : Uploader.ApiOutcome)
    (hwf : ∀ r : Uploader.ApiResponse, api = .response r → r.kindOk = true →
      r.entries.length =
        (Uploader.createBatch isMca env (Uploader.loadedRows load)).2.2.length) :
    ∀ res ∈ (Uploader.runProcess task isMca env load api).recorded,
      (res.successfullyProcessedItemIds.length + res.contentApiFailures.length +
        res.skippedItemIds.length = (Uploader.loadedRows load).length)
      ∧ (∀ (statusCode : Nat) (reason : String),
          api = .httpError statusCode reason →
            res.contentApiFailures =
              (Uploader.loadedRows load).map (fun i => ⟨some i.itemId, reason⟩))
      ∧ (∀ r : Uploader.ApiResponse, api = .response r →
          res.skippedItemIds =
            ((Uploader.loadedRows load).filter
              (fun it => isMca && Uploader.merchantMissing it)).map
              Uploader.Item.itemId) := by
  intro res hres
  rw [Uploader.runProcess.eq_def] at hres
  by_cases hbs : task.batchSize = 0
  · rw [if_pos hbs] at hres
    simp at hres
  · rw [if_neg hbs] at hres
    cases load with
    | httpError => simp at hres
    | rows items =>
      by_cases hempty : items.isEmpty
      · simp only [hempty, if_true] at hres
        simp at hres
        subst hres
        have hnil : items = [] := List.isEmpty_iff.mp hempty
        subst hnil
        refine ⟨rfl, ?_, ?_⟩
        · intro statusCode reason _
          rfl
        · intro r _
          rfl
      · simp only [hempty, Bool.false_eq_true, if_false] at hres
        have hlen := Uploader.createBatchAux_len isMca env 0 items
        have hskip := Uploader.createBatchAux_skipped isMca env 0 items
        cases api with
        | response r =>
          simp at hres
          subst hres
          refine ⟨?_, ?_, ?_⟩
          · show (Uploader.handleResponse r
                (Uploader.createBatch isMca env items).2.2).1.length +
              (Uploader.handleResponse r
                (Uploader.createBatch isMca env items).2.2).2.length +
              (Uploader.createBatch isMca env items).2.1.length = _
            rw [Uploader.handleResponse]
            simp only [Uploader.loadedRows]
            by_cases hk : r.kindOk
            · simp only [hk, Bool.not_true, Bool.false_eq_true, if_false]
              have hrl := Uploader.handleResponseEntries_len
                (Uploader.createBatch isMca env items).2.2 r.entries
              have hew := hwf r rfl hk
              simp only [Uploader.loadedRows] at hew
              unfold Uploader.createBatch at hlen hskip hew hrl ⊢
              omega
            · simp only [Bool.not_eq_true] at hk
              simp only [hk, Bool.not_false, if_true]
              simp only [List.length_nil, List.length_map]
              unfold Uploader.createBatch at hlen hskip ⊢
              omega
          · intro statusCode reason h
            cases h
          · intro r2 h
            have hr2 : r2 = r := by
              injection h with h2
              exact h2.symm
            subst hr2
            show (Uploader.createBatch isMca env items).2.1 = _
            unfold Uploader.createBatch
            rw [hskip]
            rfl
        | httpError statusCode reason =>
          simp at hres
          subst hres
          refine ⟨?_, ?_, ?_⟩
          · simp only [Uploader.handleContentApiError, Uploader.loadedRows,
              List.length_nil, List.length_map]
            omega
          · intro sc rs h
            injection h with h1 h2
            subst h1
            subst h2
            rfl
          · intro r h
            cases h
        | socketTimeout =>
          simp at hres
          subst hres
          refine ⟨?_, ?_, ?_⟩
          · simp only [Uploader.handleContentApiError, Uploader.loadedRows,
              List.length_nil, List.length_map]
            omega
          · intro sc rs h
            cases h
          · intro r h
            cases h

/-- Witness for C6: a two-row batch where one row is skipped for a missing
merchant id and the response reports one failure among the remaining entry. -/
theorem claim_C6_witness :
    (Uploader.ProcessResult.mk [] [⟨some "a", "oops"⟩]
        ["b"]).successfullyProcessedItemIds.length +
      (Uploader.ProcessResult.mk [] [⟨some "a", "oops"⟩]
        ["b"]).contentApiFailures.length +
      (Uploader.ProcessResult.mk [] [⟨some "a", "oops"⟩]
        ["b"]).skippedItemIds.length =
      (Uploader.loadedRows (.rows [⟨"a", some "123"⟩, ⟨"b", none⟩])).length :=
  (claim_C6 ⟨0, 1000, "ts"⟩ true "m"
    (.rows [⟨"a", some "123"⟩, ⟨"b", none⟩])
    (.response ⟨true, [⟨some 0, some "oops"⟩]⟩)
    (by intro r hr hk; injection hr with h1; subst h1; decide)
    (Uploader.ProcessResult.mk [] [⟨some "a", "oops"⟩] ["b"]) (by decide)).1

/-- C10 (amended): `UploadTask.from_json` defaults a missing `start_index`
to 0, a missing `batch_size` to 0 and a missing `timestamp` to `'0'`;
consequently any payload whose `batch_size` is exactly 0 — in particular the
empty JSON object — makes `_run_process` return HTTP 200 `'OK'` immediately,
with nothing loaded, submitted, or recorded.  (A negative `batch_size` does
not take this early return, because the guard tests `batch_size == 0`.) -/
theorem claim_C10 (p : Uploader.TaskPayload) (isMca : Bool) (env : String)
    (load : Uploader.LoadOutcome) (api : Uploader.ApiOutcome) :
    (p.startIndex = none → (Uploader.UploadTask.fromJson p).startIndex = 0)
    ∧ (p.batchSize = none → (Uploader.UploadTask.fromJson p).batchSize = 0)
    ∧ (p.timestamp = none → (Uploader.UploadTask.fromJson p).timestamp = "0")
    ∧ ((Uploader.UploadTask.fromJson p).batchSize = 0 →
        Uploader.runProcess (Uploader.UploadTask.fromJson p) isMca env load api =
          ⟨"OK", 200, []⟩)
    ∧ Uploader.runProcess (Uploader.UploadTask.fromJson ⟨none, none, none⟩)
        isMca env load api = ⟨"OK", 200, []⟩ := by
  refine ⟨?_, ?_, ?_, ?_, ?_⟩
  · intro h
    simp [Uploader.UploadTask.fromJson, h]
  · intro h
    simp [Uploader.UploadTask.fromJson, h]
  · intro h
    simp [Uploader.UploadTask.fromJson, h]
  · intro h
    rw [Uploader.runProcess.eq_def, if_pos h]
  · have h0 : (Uploader.UploadTask.fromJson ⟨none, none, none⟩).batchSize = 0 := rfl
    rw [Uploader.runProcess.eq_def, if_pos h0]

/-- Counterexample to C10 as stated: the payload with `batch_size = -1` has
no positive batch size, yet the handler does not return 200 `'OK'`
immediately — it proceeds to load and submit, here hitting a 404 `HttpError`
whose result is recorded. -/
theorem claim_C10_counterexample :
    Uploader.UploadTask.fromJson ⟨none, some (-1), none⟩ = ⟨0, -1, "0"⟩
    ∧ (Uploader.runProcess (Uploader.UploadTask.fromJson ⟨none, some (-1), none⟩)
        false "m" (.rows [⟨"i1", none⟩]) (.httpError 404 "not found")).statusCode = 404
    ∧ (Uploader.runProcess (Uploader.UploadTask.fromJson ⟨none, some (-1), none⟩)
        false "m" (.rows [⟨"i1", none⟩]) (.httpError 404 "not found")).recorded ≠ [] := by
  refine ⟨rfl, rfl, ?_⟩
  decide

/-- Witness for C10 at the empty JSON payload. -/
theorem claim_C10_witness :
    Uploader.runProcess (Uploader.UploadTask.fromJson ⟨none, none, none⟩)
      false "m" (.rows [⟨"i1", none⟩]) .socketTimeout = ⟨"OK", 200, []⟩ :=
  (claim_C10 ⟨none, none, none⟩ false "m" (.rows [⟨"i1", none⟩])
    .socketTimeout).2.2.2.1 (by decide)

namespace StageChanges

theorem eofIsInvalid_badname (name : String) (size : Int)
    (h1 : name ≠ "EOF") (h2 : name ≠ "EOF.retry") :
    eofIsInvalid name size = true := by
  simp [eofIsInvalid, h1, h2]

theorem eofIsInvalid_size (name : String) (size : Int) (h : size ≠ 0) :
    eofIsInvalid name size = true := by
  rw [eofIsInvalid]
  by_cases hn : name ≠ "EOF" ∧ name ≠ "EOF.retry"
  · rw [if_pos hn]
  · rw [if_neg hn, if_pos h]

theorem ensureAllFiles_nil_left (st : CalcState) (completed : List String) :
    ensureAllFilesWereImported st [] completed = ((false, []), cleanUp st true) := rfl

theorem ensureAllFiles_nil_right (st : CalcState) (attempted : List String) :
    ensureAllFilesWereImported st attempted [] = ((false, []), cleanUp st true) := by
  cases attempted <;> rfl

theorem ensureAllFiles_cons_cons (st : CalcState) (a c : String)
    (as cs : List String) :
    ensureAllFilesWereImported st (a :: as) (c :: cs) =
      if ((a :: as).filter (fun f => !(c :: cs).contains f)).isEmpty
      then ((true, []), st)
      else ((false, (a :: as).filter (fun f => !(c :: cs).contains f)), st) := by
  cases hf : (a :: as).filter (fun f => !(c :: cs).contains f) with
  | nil =>
    simp only [ensureAllFilesWereImported, hf]
    rfl
  | cons x xs =>
    simp only [ensureAllFilesWereImported, hf]
    rfl

theorem afterLockPhase_emptyEnum (env : CalcEnv) (st : CalcState)
    (h : env.attemptedFiles = [] ∨ env.completedFiles = []) :
    afterLockPhase env st = some ⟨false, false, none, none, 0⟩ := by
  have hens : ensureAllFilesWereImported st env.attemptedFiles env.completedFiles =
      ((false, []), cleanUp st true) := by
    rcases h with h | h
    · rw [h, ensureAllFiles_nil_left]
    · rw [h, ensureAllFiles_nil_right]
  rw [afterLockPhase, hens]
  rfl

theorem afterLockPhase_missing (env : CalcEnv) (st : CalcState)
    (h1 : env.attemptedFiles ≠ []) (h2 : env.completedFiles ≠ [])
    (h3 : env.attemptedFiles.filter (fun f => !env.completedFiles.contains f) ≠ []) :
    afterLockPhase env st = some ⟨st.lockExists, st.itemsTableExists,
      some (env.attemptedFiles.filter (fun f => !env.completedFiles.contains f)),
      none, 0⟩ := by
  cases ha : env.attemptedFiles with
  | nil => exact absurd ha h1
  | cons a as =>
    cases hc : env.completedFiles with
    | nil => exact absurd hc h2
    | cons c cs =>
      rw [ha, hc] at h3
      cases hf : (a :: as).filter (fun f => !(c :: cs).contains f) with
      | nil => exact absurd hf h3
      | cons x xs =>
        have hens : ensureAllFilesWereImported st env.attemptedFiles env.completedFiles =
            ((false, x :: xs), st) := by
          rw [ha, hc, ensureAllFiles_cons_cons, hf]
          rfl
        rw [afterLockPhase, hens]
        rfl

theorem applyCountsAndThresholds_spec (dThresh uThreshEnv dRaw uRaw eRaw : Int)
    (hd : 0 ≤ dRaw) (hu : 0 ≤ uRaw) (he : 0 ≤ eRaw) (hut : 0 < uThreshEnv) :
    applyCountsAndThresholds dThresh uThreshEnv dRaw uRaw eRaw =
      some (if dThresh < dRaw then 0 else dRaw,
        if uThreshEnv < uRaw then 0 else uRaw,
        eRaw,
        if uThreshEnv < uRaw then 1 else 0) := by
  rw [applyCountsAndThresholds]
  simp only [if_neg (by omega : ¬ dRaw < 0), if_neg (by omega : ¬ uRaw < 0),
    if_neg (by omega : ¬ eRaw < 0), if_pos hut]
  by_cases h1 : uThreshEnv < uRaw
  · rw [if_pos (by omega : uRaw > uThreshEnv)]
    rw [if_pos h1, if_pos h1]
  · rw [if_neg (by omega : ¬ uRaw > uThreshEnv)]
    rw [if_neg h1, if_neg h1]

theorem afterLockPhase_thresholds (env : CalcEnv) (st : CalcState)
    (h1 : env.attemptedFiles ≠ []) (h2 : env.completedFiles ≠ [])
    (h3 : env.attemptedFiles.filter (fun f => !env.completedFiles.contains f) = [])
    (hclean : env.cleanupCompletedOk = true) (harch : env.archiveOk = true)
    (htab : env.tablesExist = true) (hconf : env.configOk = true)
    (hcopy : env.copyItemsOk = true) (hdel : env.deletesCalcOk = true)
    (hupd : env.updatesCalcOk = true) (hins : env.insertsCalcOk = true)
    (hexp : env.expirationsCalcOk = true)
    (hd : 0 ≤ env.deleteCountRaw) (hu : 0 ≤ env.upsertCountRaw)
    (he : 0 ≤ env.expiringCountRaw) (hut : 0 < env.upsertsThresholdEnv)
    (hcreate : env.createTaskOk = true) :
    afterLockPhase env st = some ⟨false, st.itemsTableExists, none,
      some (if deletesThreshold env < env.deleteCountRaw then 0 else env.deleteCountRaw,
        env.expiringCountRaw,
        if env.upsertsThresholdEnv < env.upsertCountRaw then 0 else env.upsertCountRaw),
      if env.upsertsThresholdEnv < env.upsertCountRaw then 1 else 0⟩ := by
  have hens : ensureAllFilesWereImported st env.attemptedFiles env.completedFiles =
      ((true, []), st) := by
    cases ha : env.attemptedFiles with
    | nil => exact absurd ha h1
    | cons a as =>
      cases hc : env.completedFiles with
      | nil => exact absurd hc h2
      | cons c cs =>
        rw [ha, hc] at h3
        rw [ensureAllFiles_cons_cons, h3]
        rfl
  rw [afterLockPhase, hens, hclean, harch, htab, hconf, hcopy, hdel, hupd, hins, hexp]
  rw [applyCountsAndThresholds_spec _ _ _ _ _ hd hu he hut]
  rw [hcreate]
  rfl

end StageChanges

/-- C3 (amended): cleanup (lock object deleted and run-scoped items table
deleted) runs only on the infrastructure-failure abort paths — here the
zero-object bucket enumerations.  The bad-trigger-name and non-empty-trigger
paths return with the lock and the items table exactly as they were; the
lock-held path returns with the lock still present; the missing-files
verification path keeps the freshly acquired lock and the items table and
writes the retry trigger instead of cleaning up; and the
threshold-exhausted-to-zero case is not an abort at all — a zero-count
payload is still dispatched and the final cleanup deletes the lock but
deliberately keeps the items table. -/
theorem claim_C3 (env : StageChanges.CalcEnv) (st : StageChanges.CalcState) :
    (env.eventName ≠ "EOF" → env.eventName ≠ "EOF.retry" →
      StageChanges.calculateProductChanges env st =
        some (StageChanges.unchangedResult st))
    ∧ (env.eventSize ≠ 0 →
      StageChanges.calculateProductChanges env st =
        some (StageChanges.unchangedResult st))
    ∧ (env.eventName = "EOF" → env.eventSize = 0 → st.lockExists = true →
      StageChanges.calculateProductChanges env st =
        some (StageChanges.unchangedResult st))
    ∧ (env.eventName = "EOF" → env.eventSize = 0 → st.lockExists = false →
      env.attemptedFiles ≠ [] → env.completedFiles ≠ [] →
      env.attemptedFiles.filter (fun f => !env.completedFiles.contains f) ≠ [] →
      StageChanges.calculateProductChanges env st =
        some ⟨true, st.itemsTableExists,
          some (env.attemptedFiles.filter (fun f => !env.completedFiles.contains f)),
          none, 0⟩)
    ∧ (env.eventName = "EOF" → env.eventSize = 0 → st.lockExists = false →
      (env.attemptedFiles = [] ∨ env.completedFiles = []) →
      StageChanges.calculateProductChanges env st =
        some ⟨false, false, none, none, 0⟩)
    ∧ (env.eventName = "EOF" → env.eventSize = 0 → st.lockExists = false →
      env.attemptedFiles ≠ [] → env.completedFiles ≠ [] →
      env.attemptedFiles.filter (fun f => !env.completedFiles.contains f) = [] →
      env.cleanupCompletedOk = true → env.archiveOk = true →
      env.tablesExist = true → env.configOk = true → env.copyItemsOk = true →
      env.deletesCalcOk = true → env.updatesCalcOk = true →
      env.insertsCalcOk = true → env.expirationsCalcOk = true →
      0 ≤ env.deleteCountRaw → 0 ≤ env.upsertCountRaw →
      0 ≤ env.expiringCountRaw →
      StageChanges.deletesThreshold env < env.deleteCountRaw →
      0 < env.upsertsThresholdEnv →
      env.upsertsThresholdEnv < env.upsertCountRaw →
      env.createTaskOk = true →
      StageChanges.calculateProductChanges env st =
        some ⟨false, st.itemsTableExists, none,
          some (0, env.expiringCountRaw, 0), 1⟩) := by
  have heofretry : ("EOF" : String) ≠ "EOF.retry" := by decide
  refine ⟨?_, ?_, ?_, ?_, ?_, ?_⟩
  · intro h1 h2
    rw [StageChanges.calculateProductChanges,
      if_pos (StageChanges.eofIsInvalid_badname env.eventName env.eventSize h1 h2)]
  · intro h
    rw [StageChanges.calculateProductChanges,
      if_pos (StageChanges.eofIsInvalid_size env.eventName env.eventSize h)]
  · intro hname hsize hlock
    rw [StageChanges.calculateProductChanges, hname, hsize]
    rw [if_neg (by decide : ¬ StageChanges.eofIsInvalid "EOF" 0 = true)]
    rw [if_pos heofretry, if_pos hlock]
  · intro hname hsize hlock hatt hcomp hmiss
    rw [StageChanges.calculateProductChanges, hname, hsize]
    rw [if_neg (by decide : ¬ StageChanges.eofIsInvalid "EOF" 0 = true)]
    rw [if_pos heofretry, if_neg (by rw [hlock]; exact Bool.false_ne_true)]
    exact StageChanges.afterLockPhase_missing env _ hatt hcomp hmiss
  · intro hname hsize hlock hempty
    rw [StageChanges.calculateProductChanges, hname, hsize]
    rw [if_neg (by decide : ¬ StageChanges.eofIsInvalid "EOF" 0 = true)]
    rw [if_pos heofretry, if_neg (by rw [hlock]; exact Bool.false_ne_true)]
    exact StageChanges.afterLockPhase_emptyEnum env _ hempty
  · intro hname hsize hlock hatt hcomp hmiss hclean harch htab hconf hcopy hdel
      hupd hins hexp hd hu he hdt hut hur hcreate
    rw [StageChanges.calculateProductChanges, hname, hsize]
    rw [if_neg (by decide : ¬ StageChanges.eofIsInvalid "EOF" 0 = true)]
    rw [if_pos heofretry, if_neg (by rw [hlock]; exact Bool.false_ne_true)]
    rw [StageChanges.afterLockPhase_thresholds env _ hatt hcomp hmiss hclean harch
      htab hconf hcopy hdel hupd hins hexp hd hu he hut hcreate]
    rw [if_pos hdt, if_pos hur, if_pos hur]

/-- Counterexample to C3 as stated: on the lock-already-held abort path the
function returns at once, leaving the `EOF.lock` object present in the lock
bucket and the run-scoped items table present — not absent as the claim
requires for every abort path. -/
theorem claim_C3_counterexample :
    (StageChanges.calculateProductChanges
        ⟨"EOF", 0, 100000, 100000, ["feed1"], ["feed1"], true, true, true, true,
          true, true, true, true, true, 0, 0, 0, true⟩
        ⟨true, true⟩).map (fun r => (r.lockExists, r.itemsTableExists)) =
      some (true, true) := by
  rfl

/-- Witness for C3 on the lock-already-held path at a concrete state. -/
theorem claim_C3_witness :
    StageChanges.calculateProductChanges
        ⟨"EOF", 0, 100000, 100000, ["feed1"], ["feed1"], true, true, true, true,
          true, true, true, true, true, 0, 0, 0, true⟩
        ⟨true, false⟩ =
      some (StageChanges.unchangedResult ⟨true, false⟩) :=
  (claim_C3
    ⟨"EOF", 0, 100000, 100000, ["feed1"], ["feed1"], true, true, true, true,
      true, true, true, true, true, 0, 0, 0, true⟩
    ⟨true, false⟩).2.2.1 rfl rfl rfl

/-- C7: in the count/threshold block of `calculate_product_changes`, a delete
count above the deletes threshold is zeroed for the run with no other state
change (no rollback), so no delete batches are dispatched (a zero count
pushes no task); an upsert count above the upserts threshold is zeroed AND
the `DELETE_LATEST_STREAMING_ITEMS` rollback runs once against the
`streaming_items` rows appended for this run; e.g. upsert count 150000
against threshold 100000 yields upsert count 0 plus the rollback. -/
theorem claim_C7 (dThresh uThreshEnv dRaw uRaw eRaw : Int) (batchSize : Nat)
    (hd : 0 ≤ dRaw) (hu : 0 ≤ uRaw) (he : 0 ≤ eRaw) (hut : 0 < uThreshEnv) :
    (dThresh < dRaw → uRaw ≤ uThreshEnv →
      StageChanges.applyCountsAndThresholds dThresh uThreshEnv dRaw uRaw eRaw =
        some (0, uRaw, eRaw, 0))
    ∧ (uThreshEnv < uRaw → dRaw ≤ dThresh →
      StageChanges.applyCountsAndThresholds dThresh uThreshEnv dRaw uRaw eRaw =
        some (dRaw, 0, eRaw, 1))
    ∧ StageChanges.applyCountsAndThresholds 100000 100000 0 150000 0 =
        some (0, 0, 0, 1)
    ∧ TasksClient.pushTasks 0 batchSize = [] := by
  refine ⟨?_, ?_, by decide, TasksClient.pushTasks_zero batchSize⟩
  · intro hdt hult
    rw [StageChanges.applyCountsAndThresholds_spec _ _ _ _ _ hd hu he hut]
    rw [if_pos hdt, if_neg (by omega : ¬ uThreshEnv < uRaw),
      if_neg (by omega : ¬ uThreshEnv < uRaw)]
  · intro hult hdt
    rw [StageChanges.applyCountsAndThresholds_spec _ _ _ _ _ hd hu he hut]
    rw [if_neg (by omega : ¬ dThresh < dRaw), if_pos hult, if_pos hult]

/-- Witness for C7 at the claim's example: upsert count 150000 against
threshold 100000. -/
theorem claim_C7_witness :
    StageChanges.applyCountsAndThresholds 100000 100000 0 150000 0 =
      some (0, 0, 0, 1) :=
  (claim_C7 100000 100000 0 150000 0 1000 (by decide) (by decide) (by decide)
    (by decide)).2.1 (by decide) (by decide)

/-- C9: a trigger named `EOF.retry` skips the lock-existence check and lock
acquisition entirely — the function is the post-lock phase applied to the
unmodified state, which begins with the import-completeness check; a trigger
named `EOF` while `EOF.lock` exists logs an already-exists error and returns
with nothing else done. -/
theorem claim_C9 (env : StageChanges.CalcEnv) (st : StageChanges.CalcState) :
    (env.eventName = "EOF.retry" → env.eventSize = 0 →
      StageChanges.calculateProductChanges env st =
        StageChanges.afterLockPhase env st)
    ∧ (env.eventName = "EOF" → env.eventSize = 0 → st.lockExists = true →
      StageChanges.calculateProductChanges env st =
        some (StageChanges.unchangedResult st)) := by
  constructor
  · intro hname hsize
    rw [StageChanges.calculateProductChanges, hname, hsize]
    rw [if_neg (by decide : ¬ StageChanges.eofIsInvalid "EOF.retry" 0 = true)]
    rw [if_neg (by decide : ¬ ("EOF.retry" : String) ≠ "EOF.retry")]
  · intro hname hsize hlock
    rw [StageChanges.calculateProductChanges, hname, hsize]
    rw [if_neg (by decide : ¬ StageChanges.eofIsInvalid "EOF" 0 = true)]
    rw [if_pos (by decide : ("EOF" : String) ≠ "EOF.retry"), if_pos hlock]

/-- Witness for C9: a retry trigger proceeds to the import-completeness
check even though the lock object exists. -/
theorem claim_C9_witness :
    StageChanges.calculateProductChanges
        ⟨"EOF.retry", 0, 100000, 100000, ["feed1"], ["feed1"], true, true, true,
          true, true, true, true, true, true, 0, 0, 0, true⟩
        ⟨true, true⟩ =
      StageChanges.afterLockPhase
        ⟨"EOF.retry", 0, 100000, 100000, ["feed1"], ["feed1"], true, true, true,
          true, true, true, true, true, true, 0, 0, 0, true⟩
        ⟨true, true⟩ :=
  (claim_C9
    ⟨"EOF.retry", 0, 100000, 100000, ["feed1"], ["feed1"], true, true, true,
      true, true, true, true, true, true, 0, 0, 0, true⟩
    ⟨true, true⟩).1 rfl rfl

/-- C8: with both enumerations non-empty, `_ensure_all_files_were_imported`
returns `(all_present, missing)` where `missing` is exactly the set of
attempted filenames not present among the completed filenames and
`all_present` holds iff nothing is missing, with no cleanup (the state is
untouched); attempted `a,b,c` against completed `a,c` gives `missing = [b]`
and `all_present = false`; a zero-object enumeration of either bucket
returns `all_present = false` with an empty missing list after invoking
`_clean_up` — and in the caller this empty missing list means no retry
trigger is written (the run aborts with full cleanup instead). -/
theorem claim_C8 (st : StageChanges.CalcState) (attempted completed : List String)
    (h1 : attempted ≠ []) (h2 : completed ≠ []) :
    (∀ f, f ∈ (StageChanges.ensureAllFilesWereImported st attempted completed).1.2 ↔
      (f ∈ attempted ∧ f ∉ completed))
    ∧ ((StageChanges.ensureAllFilesWereImported st attempted completed).1.1 = true ↔
      ∀ f ∈ attempted, f ∈ completed)
    ∧ (StageChanges.ensureAllFilesWereImported st attempted completed).2 = st
    ∧ StageChanges.ensureAllFilesWereImported st [] completed =
        ((false, []), StageChanges.cleanUp st true)
    ∧ StageChanges.ensureAllFilesWereImported st attempted [] =
        ((false, []), StageChanges.cleanUp st true)
    ∧ StageChanges.ensureAllFilesWereImported ⟨true, true⟩ ["a", "b", "c"]
        ["a", "c"] = ((false, ["b"]), ⟨true, true⟩)
    ∧ (∀ env : StageChanges.CalcEnv,
        (env.attemptedFiles = [] ∨ env.completedFiles = []) →
        StageChanges.afterLockPhase env st = some ⟨false, false, none, none, 0⟩) := by
  obtain ⟨a, as, ha⟩ : ∃ a as, attempted = a :: as := by
    cases attempted with
    | nil => exact absurd rfl h1
    | cons a as => exact ⟨a, as, rfl⟩
  obtain ⟨c, cs, hc⟩ : ∃ c cs, completed = c :: cs := by
    cases completed with
    | nil => exact absurd rfl h2
    | cons c cs => exact ⟨c, cs, rfl⟩
  subst ha
  subst hc
  have hmain : (StageChanges.ensureAllFilesWereImported st (a :: as) (c :: cs)).1.2 =
      (a :: as).filter (fun f => !(c :: cs).contains f) ∧
      ((StageChanges.ensureAllFilesWereImported st (a :: as) (c :: cs)).1.1 =
        ((a :: as).filter (fun f => !(c :: cs).contains f)).isEmpty) ∧
      (StageChanges.ensureAllFilesWereImported st (a :: as) (c :: cs)).2 = st := by
    rw [StageChanges.ensureAllFiles_cons_cons]
    cases hf : (a :: as).filter (fun f => !(c :: cs).contains f) with
    | nil => exact ⟨rfl, rfl, rfl⟩
    | cons x xs => exact ⟨rfl, rfl, rfl⟩
  refine ⟨?_, ?_, hmain.2.2, StageChanges.ensureAllFiles_nil_left st (c :: cs),
    StageChanges.ensureAllFiles_nil_right st (a :: as), by decide, ?_⟩
  · intro f
    rw [hmain.1, List.mem_filter]
    simp
  · rw [hmain.2.1, List.isEmpty_iff, List.filter_eq_nil_iff]
    simp
    constructor
    · rintro ⟨hh, ht⟩
      refine ⟨?_, ?_⟩
      · by_cases hac : a = c
        · exact Or.inl hac
        · exact Or.inr (hh hac)
      · intro x hx
        by_cases hxc : x = c
        · exact Or.inl hxc
        · exact Or.inr (ht x hx hxc)
    · rintro ⟨hh, ht⟩
      exact ⟨fun hn => hh.resolve_left hn, fun x hx hn => (ht x hx).resolve_left hn⟩
  · intro env henv
    exact StageChanges.afterLockPhase_emptyEnum env st henv

/-- Witness for C8 at the claim's example `attempted = [a,b,c]`,
`completed = [a,c]`. -/
theorem claim_C8_witness :
    StageChanges.ensureAllFilesWereImported ⟨true, true⟩ ["a", "b", "c"]
      ["a", "c"] = ((false, ["b"]), ⟨true, true⟩) :=
  (claim_C8 ⟨true, true⟩ ["a", "b", "c"] ["a", "c"] (by decide)
    (by decide)).2.2.2.2.2.1
